import Mathlib

/-!
Verification of the build-configuration pipeline in `setup.py` of the
SpargeAttn repository.  The pipeline resolves target GPU architectures
(from the `TORCH_CUDA_ARCH_LIST` override or by probing devices),
validates the nvcc toolchain version, assembles compiler flags, runs and
enumerates kernel-instantiation generators, and composes the extension
build targets.  Every definition below is a shallow embedding of the
corresponding Python code; the environment (override string, device
capabilities, nvcc version, filesystem contents, generator exit codes)
is passed in explicitly.
-/

/-! ## Character-level string helpers (Python string semantics) -/

/-- Build a `String` from a list of characters. -/
def ofChars (l : List Char) : String := ⟨l⟩

/-- Python `s.replace(" ", ";")`: single-character substring replacement
is a character-wise map. -/
def pyReplaceSpaceSemi (s : String) : String :=
  ofChars (s.toList.map (fun c => if c = ' ' then ';' else c))

/-- Auxiliary splitter: accumulates the current (reversed) segment. -/
def splitSemiAux : List Char → List Char → List String
  | [], acc => [ofChars acc.reverse]
  | c :: rest, acc =>
    if c = ';' then ofChars acc.reverse :: splitSemiAux rest []
    else splitSemiAux rest (c :: acc)

/-- Python `s.split(";")`.  Note `"".split(";") == [""]`: the result is
never the empty list. -/
def pySplitSemi (s : String) : List String := splitSemiAux s.toList []

/-- Python `s.endswith(suffix)`. -/
def pyEndsWith (s sfx : String) : Bool :=
  s.toList.reverse.take sfx.toList.length == sfx.toList.reverse

/-- Python `s.startswith(p)`. -/
def pyStartsWith (p s : String) : Bool := s.toList.take p.toList.length == p.toList

/-- Boolean prefix test on character lists. -/
def isPrefixOfL : List Char → List Char → Bool
  | [], _ => true
  | _ :: _, [] => false
  | a :: as, b :: bs => a == b && isPrefixOfL as bs

/-- Does `needle` occur as a contiguous substring of the haystack?
Used to express whether an error message names a particular value. -/
def containsSubstr (needle : List Char) : List Char → Bool
  | [] => isPrefixOfL needle []
  | b :: bs => isPrefixOfL needle (b :: bs) || containsSubstr needle bs

/-! ## Architecture catalog and override parsing (`get_torch_arch_list`) -/

/-- `SUPPORTED_ARCHS = {"8.0", "8.6", "8.7", "8.9", "9.0"}` (setup.py line 51). -/
def SUPPORTED_ARCHS : List String := ["8.0", "8.6", "8.7", "8.9", "9.0"]

/-- `valid_archs = SUPPORTED_ARCHS.union({s + "+PTX" for s in SUPPORTED_ARCHS})`. -/
def validArchs : List String := SUPPORTED_ARCHS ++ SUPPORTED_ARCHS.map (fun s => s ++ "+PTX")

/-- The parsed override entry set:
`set(env_arch_list.replace(" ", ";").split(";"))`.  Python set
membership is modelled by deduplicating the split list. -/
def parseArchList (e : String) : List String :=
  (pySplitSemi (pyReplaceSpaceSemi e)).dedup

/-- Message of the error raised when no override entry is supported. -/
def noneSupportedMsg (e : String) : String :=
  "None of the CUDA architectures in TORCH_CUDA_ARCH_LIST env variable (" ++
    e ++ ") is supported."

/-- `get_torch_arch_list` (setup.py lines 87-119).  `env` is the value of
the `TORCH_CUDA_ARCH_LIST` environment variable (`none` when unset).
Returns the resolved entry set together with a flag recording whether
the unsupported-architecture warning was emitted; errors are the raised
`RuntimeError`. -/
def get_torch_arch_list (env : Option String) : Except String (List String × Bool) :=
  match env with
  | none => .ok ([], false)
  | some e =>
    let torch_arch_list := parseArchList e
    if torch_arch_list = [] then .ok ([], false)
    else
      let arch_list := torch_arch_list.filter (fun a => validArchs.contains a)
      if arch_list = [] then .error (noneSupportedMsg e)
      else
        let invalid := torch_arch_list.filter (fun a => !(validArchs.contains a))
        .ok (arch_list, !invalid.isEmpty)

/-! ## Device probing and architecture resolution (setup.py lines 122-136) -/

/-- The capability string `f"{major}.{minor}"`. -/
def capString (major minor : Nat) : String := toString major ++ "." ++ toString minor

/-- Message of the error raised for a device with major version below 8. -/
def belowMsg : String := "GPUs with compute capability below 8.0 are not supported."

/-- Message of the error raised when no GPUs are found. -/
def noGpusMsg : String :=
  "No GPUs found. Please specify the target GPU architectures or build on a machine with GPUs."

/-- The probe loop (setup.py lines 126-132): iterate over the devices in
index order, failing at the first one whose major version is below 8,
otherwise collecting `f"{major}.{minor}"`. -/
def probeDevices : List (Nat × Nat) → Except String (List String)
  | [] => .ok []
  | (major, minor) :: rest =>
    if major < 8 then .error belowMsg
    else (probeDevices rest).map (fun l => capString major minor :: l)

/-- Architecture resolution: the override set if non-empty, otherwise the
probed capability set (set semantics modelled by `dedup`). -/
def resolveArchs (env : Option String) (devices : List (Nat × Nat)) :
    Except String (List String) :=
  match get_torch_arch_list env with
  | .error e => .error e
  | .ok (ccs, _) => if ccs.isEmpty then (probeDevices devices).map List.dedup else .ok ccs

/-- Resolution followed by the emptiness check of setup.py lines 135-136. -/
def resolveChecked (env : Option String) (devices : List (Nat × Nat)) :
    Except String (List String) :=
  match resolveArchs env devices with
  | .error e => .error e
  | .ok ccs => if ccs.isEmpty then .error noGpusMsg else .ok ccs

/-! ## Toolchain validation (setup.py lines 139-147) -/

/-- Strict order on `major.minor` toolchain versions (as compared by
`packaging.version` on numeric release pairs). -/
def verLt (a b : Nat × Nat) : Bool := a.1 < b.1 || (a.1 == b.1 && a.2 < b.2)

/-- Message of the global-minimum toolchain error. -/
def cuda12Msg : String := "CUDA 12.0 or higher is required to build the package."

/-- Message of the stricter-minimum error for capability 8.9. -/
def cuda124For89Msg : String := "CUDA 12.4 or higher is required for compute capability 8.9."

/-- Message of the stricter-minimum error for capability 9.0. -/
def cuda124For90Msg : String := "CUDA 12.4 or higher is required for compute capability 9.0."

/-- The nvcc version checks (setup.py lines 139-147). -/
def validateToolchain (v : Nat × Nat) (ccs : List String) : Except String Unit :=
  if verLt v (12, 0) then .error cuda12Msg
  else if verLt v (12, 4) then
    if ccs.any (fun cc => pyStartsWith "8.9" cc) then .error cuda124For89Msg
    else if ccs.any (fun cc => pyStartsWith "9.0" cc) then .error cuda124For90Msg
    else .ok ()
  else .ok ()

/-! ## Flag assembly (setup.py lines 53-69 and 150-158) -/

/-- `CXX_FLAGS` base list (setup.py line 54). -/
def CXX_FLAGS_BASE : List String :=
  ["-g", "-O3", "-fopenmp", "-lgomp", "-std=c++17", "-DENABLE_BF16"]

/-- `NVCC_FLAGS` base list (setup.py lines 55-65). -/
def NVCC_FLAGS_BASE : List String :=
  ["-O3", "-std=c++17", "-U__CUDA_NO_HALF_OPERATORS__", "-U__CUDA_NO_HALF_CONVERSIONS__",
   "--use_fast_math", "--threads=8", "-Xptxas=-v", "-diag-suppress=174",
   "-Xcompiler", "-include,cassert"]

/-- The ABI define `f"-D_GLIBCXX_USE_CXX11_ABI={ABI}"` (setup.py lines 67-69). -/
def abiDefine (abi : Nat) : String := "-D_GLIBCXX_USE_CXX11_ABI=" ++ toString abi

/-- `num = capability[0] + capability[2]` (setup.py line 151). -/
def numOf (c : String) : String := c.take 1 ++ (c.drop 2).take 1

/-- The identifier actually used in gencode flags: `'90'` becomes `'90a'`. -/
def numMapped (c : String) : String := if numOf c = "90" then "90a" else numOf c

/-- Per-capability contribution to `CXX_FLAGS` inside the loop of
setup.py lines 150-158: `["-DHAS_SM90"]` for a 9.0-generation capability. -/
def capCxx (c : String) : List String := if numOf c = "90" then ["-DHAS_SM90"] else []

/-- The `sm` gencode pair for identifier `n`. -/
def gencodeSm (n : String) : List String :=
  ["-gencode", "arch=compute_" ++ n ++ ",code=sm_" ++ n]

/-- The PTX gencode pair for identifier `n`. -/
def gencodePtx (n : String) : List String :=
  ["-gencode", "arch=compute_" ++ n ++ ",code=compute_" ++ n]

/-- Per-capability contribution to `NVCC_FLAGS` inside the loop:
the `sm` pair, plus the PTX pair when the capability ends in `+PTX`. -/
def capNvcc (c : String) : List String :=
  gencodeSm (numMapped c) ++ (if pyEndsWith c "+PTX" then gencodePtx (numMapped c) else [])

/-- The `HAS_SM90` global after the loop. -/
def hasSM90 (ccs : List String) : Bool := ccs.any (fun c => numOf c == "90")

/-- Final `CXX_FLAGS`: base, the ABI define, then the loop contributions
in capability order. -/
def cxxFlags (ccs : List String) (abi : Nat) : List String :=
  CXX_FLAGS_BASE ++ [abiDefine abi] ++ ccs.flatMap capCxx

/-- Final `NVCC_FLAGS`: base, the ABI define, then the loop contributions
in capability order. -/
def nvccFlags (ccs : List String) (abi : Nat) : List String :=
  NVCC_FLAGS_BASE ++ [abiDefine abi] ++ ccs.flatMap capNvcc

/-! ## Source discovery (setup.py lines 30-48) -/

/-- One entry of a recursive directory listing (`Path.rglob('*')` order),
with its path relative to the bucket root, whether it is a regular file,
and its extension. -/
structure FSEntry where
  relPath : String
  isFile : Bool
  sfx : String
deriving DecidableEq, Repr

/-- `get_instantiations` (setup.py lines 41-48): the `.cu` regular files
under `src_dir`, joined to `src_dir`, in filesystem-enumeration order.
No sorting is applied. -/
def get_instantiations (srcDir : String) (entries : List FSEntry) : List String :=
  (entries.filter (fun e => e.isFile && e.sfx == ".cu")).map
    (fun e => srcDir ++ "/" ++ e.relPath)

/-- A generator script found under a bucket directory, together with the
exit status its process would report. -/
structure Script where
  path : String
  exitCode : Int
deriving DecidableEq, Repr

/-- `os.system(f"python {py_file}")`: running the script reports its exit
status. -/
def osSystem (s : Script) : Int := s.exitCode

/-- `run_instantiations` (setup.py lines 30-39): run every discovered
generator script in order.  The loop binds the status returned by
`os.system` but never inspects it; the trace of `(path, status)` pairs is
returned so theorems can speak about which generators were executed. -/
def run_instantiations : List Script → Except String (List (String × Int))
  | [] => .ok []
  | s :: rest =>
    let status := osSystem s
    match run_instantiations rest with
    | .ok t => .ok ((s.path, status) :: t)
    | .error e => .error e

/-! ## Extension targets (setup.py lines 160-195) -/

/-- A `CUDAExtension` descriptor: name, sources, cxx / nvcc compile args,
link args. -/
structure ExtTarget where
  name : String
  sources : List String
  cxx : List String
  nvcc : List String
  link : List String
deriving DecidableEq, Repr

/-- Bucket directory for the sm80 instantiations. -/
def sm80Dir : String := "csrc/qattn/instantiations_sm80"

/-- Bucket directory for the sm89 instantiations. -/
def sm89Dir : String := "csrc/qattn/instantiations_sm89"

/-- Bucket directory for the sm90 instantiations. -/
def sm90Dir : String := "csrc/qattn/instantiations_sm90"

/-- The `ext_modules` list (setup.py lines 160-195): the `_qattn` target
(fixed base sources, the sm80 and sm89 instantiations, and — only when
`HAS_SM90` — the sm90 kernel and instantiations) followed by the
`_fused` target. -/
def buildExtModules (ccs : List String) (abi : Nat)
    (sm80 sm89 sm90 : List FSEntry) : List ExtTarget :=
  let cxx := cxxFlags ccs abi
  let nvcc := nvccFlags ccs abi
  let qattnSources :=
    ["csrc/qattn/pybind.cpp", "csrc/qattn/qk_int_sv_f16_cuda_sm80.cu",
     "csrc/qattn/qk_int_sv_f8_cuda_sm89.cu"] ++
    get_instantiations sm80Dir sm80 ++ get_instantiations sm89Dir sm89 ++
    (if hasSM90 ccs then
      ["csrc/qattn/qk_int_sv_f8_cuda_sm90.cu"] ++ get_instantiations sm90Dir sm90
     else [])
  [⟨"spas_sage_attn._qattn", qattnSources, cxx, nvcc, ["-lcuda"]⟩,
   ⟨"spas_sage_attn._fused", ["csrc/fused/pybind.cpp", "csrc/fused/fused.cu"],
     cxx, nvcc, []⟩]

/-- The whole configuration pass of setup.py in dependency order:
resolve architectures, check non-emptiness, validate the toolchain,
assemble flags and sources, and compose the extension targets. -/
def pipeline (env : Option String) (devices : List (Nat × Nat)) (ver : Nat × Nat)
    (abi : Nat) (sm80 sm89 sm90 : List FSEntry) : Except String (List ExtTarget) :=
  match resolveChecked env devices with
  | .error e => .error e
  | .ok ccs =>
    match validateToolchain ver ccs with
    | .error e => .error e
    | .ok _ => .ok (buildExtModules ccs abi sm80 sm89 sm90)

/-! ## Helper lemmas -/

theorem splitSemiAux_ne_nil (l acc : List Char) : splitSemiAux l acc ≠ [] := by
  induction l generalizing acc with
  | nil => simp [splitSemiAux]
  | cons c rest ih =>
    simp only [splitSemiAux]
    split
    · simp
    · exact ih (c :: acc)

theorem parseArchList_ne_nil (s : String) : parseArchList s ≠ [] := by
  have h := splitSemiAux_ne_nil (pyReplaceSpaceSemi s).toList []
  simp only [parseArchList, pySplitSemi, ne_eq, List.dedup_eq_nil]
  exact h

theorem abiDefine_ne_hasSM90 (abi : Nat) : abiDefine abi ≠ "-DHAS_SM90" := by
  intro h
  have hlen := congrArg String.length h
  simp only [abiDefine, String.length_append] at hlen
  have h25 : ("-D_GLIBCXX_USE_CXX11_ABI=" : String).length = 25 := by decide
  have h10 : ("-DHAS_SM90" : String).length = 10 := by decide
  omega

theorem count_capCxx (ccs : List String) :
    List.count "-DHAS_SM90" (ccs.flatMap capCxx) =
      ccs.countP (fun c => numOf c == "90") := by
  induction ccs with
  | nil => rfl
  | cons c rest ih =>
    simp only [List.flatMap_cons, List.count_append, List.countP_cons, ih, capCxx]
    split
    · simp_all; omega
    · simp_all

/-! ## C10: empty override string -/

/-- C10: when the override environment variable is set to the empty
string, resolution fails with the no-supported-architecture error
instead of falling back to device probing: the empty string parses to
the single empty entry, so the parsed entry set is non-empty (indeed it
never is empty, making the empty-set fallback branch of
`get_torch_arch_list` unreachable), its intersection with the catalog is
empty, and the resolution error is independent of the available
devices. -/
theorem C10_empty_override_fails :
    parseArchList "" = [""] ∧
    (∀ s : String, parseArchList s ≠ []) ∧
    (∀ devices : List (Nat × Nat),
      resolveChecked (some "") devices = .error (noneSupportedMsg "")) := by
  refine ⟨by decide, parseArchList_ne_nil, ?_⟩
  intro devices
  rfl

/-! ## C2: the extended-feature flag -/

/-- C2 counterexample: with both `"9.0"` and `"9.0+PTX"` resolved, the
loop of setup.py lines 150-158 appends `-DHAS_SM90` to `CXX_FLAGS`
twice, not exactly once as the claim states. -/
theorem C2_counterexample :
    List.count "-DHAS_SM90" (cxxFlags ["9.0", "9.0+PTX"] 1) = 2 ∧ (2 : Nat) ≠ 1 := by
  exact ⟨by decide, by decide⟩

/-- C2 amended: `-DHAS_SM90` is appended to `compileFlags` once per
generation-9.0 capability in the resolved set (so it appears twice when
both `"9.0"` and `"9.0+PTX"` are present), and is absent exactly when no
generation-9.0 capability is present. -/
theorem C2_hasSM90_flag_count (ccs : List String) (abi : Nat) :
    List.count "-DHAS_SM90" (cxxFlags ccs abi) =
      ccs.countP (fun c => numOf c == "90") := by
  have hbase : List.count "-DHAS_SM90" CXX_FLAGS_BASE = 0 := by decide
  have habi : List.count "-DHAS_SM90" [abiDefine abi] = 0 := by
    simp [List.count_singleton]
    intro h
    exact abiDefine_ne_hasSM90 abi h
  simp only [cxxFlags, List.count_append, hbase, habi, count_capCxx]
  omega

/-! ## C4: generator failure handling -/

/-- The concrete generator run used to refute C4: the first generator
exits with status 1, a second generator follows. -/
def failingScripts : List Script := [⟨"gen_a.py", 1⟩, ⟨"gen_b.py", 0⟩]

/-- C4 counterexample: a generator process terminates abnormally (exit
status 1), yet `run_instantiations` does not fail — it runs the
remaining generator and completes normally, contradicting the claim
that discovery fails with `GenerationError` and does not continue. -/
theorem C4_counterexample :
    ¬ ((run_instantiations failingScripts).isOk = false) ∧
    run_instantiations failingScripts = .ok [("gen_a.py", 1), ("gen_b.py", 0)] := by
  exact ⟨by decide, rfl⟩

/-- C4 amended: `run_instantiations` executes every generator in order
and discards the exit status reported by `os.system`; it never fails,
whatever the generators' exit codes are. -/
theorem C4_ignores_exit_status (scripts : List Script) :
    run_instantiations scripts = .ok (scripts.map (fun s => (s.path, osSystem s))) := by
  induction scripts with
  | nil => rfl
  | cons s rest ih =>
    simp only [run_instantiations, ih, List.map_cons]

/-! ## C3: source discovery order -/

/-- Strict lexicographic order on character lists. -/
def lexLtChars : List Char → List Char → Bool
  | [], [] => false
  | [], _ :: _ => true
  | _ :: _, [] => false
  | a :: as, b :: bs => a < b || (a == b && lexLtChars as bs)

/-- Lexicographic "less or equal" on strings. -/
def strLexLe (a b : String) : Bool := a == b || lexLtChars a.toList b.toList

/-- Is a list of paths sorted lexicographically? -/
def sortedByPath : List String → Bool
  | [] => true
  | [_] => true
  | a :: b :: rest => strLexLe a b && sortedByPath (b :: rest)

/-- Per-bucket discovery concatenated in caller-supplied bucket order
(the pattern of setup.py line 170 and lines 172-174). -/
def discoverBuckets (buckets : List (String × List FSEntry)) : List String :=
  buckets.flatMap (fun b => get_instantiations b.1 b.2)

/-- A bucket enumeration in which `rglob` yields `b.cu` before `a.cu`. -/
def unsortedBucket : List FSEntry := [⟨"b.cu", true, ".cu"⟩, ⟨"a.cu", true, ".cu"⟩]

/-- C3 counterexample: when the filesystem enumeration yields `b.cu`
before `a.cu`, `get_instantiations` returns the two discovered files in
that enumeration order, which is not sorted lexicographically (the
bucket prefix `d/` is common to both, so the joined paths compare
exactly as the bucket-relative ones do). -/
theorem C3_counterexample :
    get_instantiations "d" unsortedBucket = ["d/b.cu", "d/a.cu"] ∧
    sortedByPath (get_instantiations "d" unsortedBucket) = false ∧
    sortedByPath ["b.cu", "a.cu"] = false := by
  exact ⟨rfl, by decide, by decide⟩

/-- C3 amended: per-bucket results are concatenated in caller-supplied
bucket order, and within each bucket the discovered `.cu` files appear
in filesystem-enumeration (`rglob`) order — no lexicographic sort is
applied — so two runs yield identical ordered source lists exactly when
the enumerations coincide. -/
theorem C3_discovery_order :
    (∀ (b : String × List FSEntry) (bs : List (String × List FSEntry)),
      discoverBuckets (b :: bs) = get_instantiations b.1 b.2 ++ discoverBuckets bs) ∧
    (∀ (d : String) (es : List FSEntry),
      List.Sublist (get_instantiations d es) (es.map (fun e => d ++ "/" ++ e.relPath))) ∧
    (∀ (d : String) (es : List FSEntry),
      get_instantiations d es =
        (es.filter (fun e => e.isFile && e.sfx == ".cu")).map
          (fun e => d ++ "/" ++ e.relPath)) := by
  refine ⟨?_, ?_, ?_⟩
  · intro b bs
    simp [discoverBuckets]
  · intro d es
    exact List.Sublist.map _ (List.filter_sublist es)
  · intro d es
    rfl

/-! ## C1: the end-to-end run with override "8.0" and toolchain 12.1 -/

/-- Concrete sm80 bucket contents for the end-to-end run. -/
def exSm80 : List FSEntry := [⟨"a.cu", true, ".cu"⟩, ⟨"gen.py", true, ".py"⟩]

/-- Concrete sm89 bucket contents for the end-to-end run. -/
def exSm89 : List FSEntry := [⟨"b.cu", true, ".cu"⟩]

/-- Concrete sm90 bucket contents for the end-to-end run: non-empty, so
that exclusion of generation-9.0 sources is observable. -/
def exSm90 : List FSEntry := [⟨"c.cu", true, ".cu"⟩]

/-- The extension targets assembled by the override-"8.0" run. -/
def c1Targets : List ExtTarget := buildExtModules ["8.0"] 1 exSm80 exSm89 []

/-- C1 counterexample: the run with override `"8.0"` and toolchain
version 12.1 assembles two extension targets (`_qattn` and `_fused`),
not exactly one as the claim states. -/
theorem C1_counterexample :
    (pipeline (some "8.0") [] (12, 1) 1 exSm80 exSm89 exSm90).map List.length =
      .ok 2 ∧ (2 : Nat) ≠ 1 := by
  exact ⟨rfl, by decide⟩

/-- C1 amended: the run with override `"8.0"` and toolchain version 12.1
assembles exactly two extension targets; whatever the sm90 bucket
contains, both targets' compile argument lists contain the
generation-8.0 code-generation pair, neither contains `-DHAS_SM90`, and
neither target includes the generation-9.0 kernel or any source from
the sm90 instantiation bucket. -/
theorem C1_end_to_end (sm90 : List FSEntry) :
    pipeline (some "8.0") [] (12, 1) 1 exSm80 exSm89 sm90 = .ok c1Targets ∧
    c1Targets.length = 2 ∧
    ∀ t ∈ c1Targets,
      "-gencode" ∈ t.nvcc ∧ "arch=compute_80,code=sm_80" ∈ t.nvcc ∧
      "-DHAS_SM90" ∉ t.cxx ∧ "-DHAS_SM90" ∉ t.nvcc ∧
      ∀ s ∈ t.sources,
        s ≠ "csrc/qattn/qk_int_sv_f8_cuda_sm90.cu" ∧ pyStartsWith sm90Dir s = false := by
  exact ⟨rfl, by decide, by decide⟩

/-! ## C5: the resolved-set invariant -/

theorem get_torch_arch_list_ok_mem {env : Option String} {l : List String} {w : Bool}
    (h : get_torch_arch_list env = .ok (l, w)) : ∀ c ∈ l, c ∈ validArchs := by
  intro c hc
  match env with
  | none =>
    simp only [get_torch_arch_list] at h
    cases h
    simp at hc
  | some e =>
    simp only [get_torch_arch_list] at h
    split at h
    · cases h; simp at hc
    · split at h
      · cases h
      · cases h
        rw [List.mem_filter] at hc
        exact List.elem_iff.mp hc.2

theorem probeDevices_ok_mem {ds : List (Nat × Nat)} {l : List String}
    (h : probeDevices ds = .ok l) :
    ∀ c ∈ l, ∃ mj mi, (mj, mi) ∈ ds ∧ 8 ≤ mj ∧ c = capString mj mi := by
  induction ds generalizing l with
  | nil =>
    simp only [probeDevices] at h
    cases h
    intro c hc
    simp at hc
  | cons d rest ih =>
    obtain ⟨mj, mi⟩ := d
    simp only [probeDevices] at h
    split at h
    · cases h
    · rename_i hge
      cases hrest : probeDevices rest with
      | error e => rw [hrest] at h; cases h
      | ok l' =>
        rw [hrest] at h
        simp only [Except.map] at h
        cases h
        intro c hc
        rcases List.mem_cons.mp hc with hc | hc
        · exact ⟨mj, mi, List.mem_cons_self _ _, by omega, hc⟩
        · obtain ⟨mj', mi', hmem, hle, heq⟩ := ih hrest c hc
          exact ⟨mj', mi', List.mem_cons_of_mem _ hmem, hle, heq⟩

theorem probeDevices_low {ds : List (Nat × Nat)} {mj mi : Nat}
    (hmem : (mj, mi) ∈ ds) (hlow : mj < 8) : probeDevices ds = .error belowMsg := by
  induction ds with
  | nil => simp at hmem
  | cons d rest ih =>
    obtain ⟨a, b⟩ := d
    rcases List.mem_cons.mp hmem with h | h
    · cases h
      simp only [probeDevices]
      rw [if_pos hlow]
    · simp only [probeDevices]
      split
      · rfl
      · rw [ih h]
        rfl

theorem probeDevices_error {ds : List (Nat × Nat)} {e : String}
    (h : probeDevices ds = .error e) : e = belowMsg := by
  induction ds with
  | nil => simp only [probeDevices] at h; cases h
  | cons d rest ih =>
    obtain ⟨a, b⟩ := d
    simp only [probeDevices] at h
    split at h
    · cases h; rfl
    · cases hrest : probeDevices rest with
      | error e' => rw [hrest] at h; simp only [Except.map] at h; cases h; exact ih hrest
      | ok l' => rw [hrest] at h; simp only [Except.map] at h; cases h

theorem resolveChecked_none (devices : List (Nat × Nat)) :
    resolveChecked none devices =
      match probeDevices devices with
      | .error e => .error e
      | .ok lp => if lp.dedup.isEmpty then .error noGpusMsg else .ok lp.dedup := by
  simp only [resolveChecked, resolveArchs, get_torch_arch_list]
  cases probeDevices devices with
  | error e => rfl
  | ok lp => simp [Except.map, List.isEmpty_iff]

/-- C5 counterexample: with the override absent, probing a device of
capability 12.0 resolves successfully to `{"12.0"}`, which is not drawn
from the supported-architecture catalog (the probe path only enforces
`major >= 8`, not catalog membership). -/
theorem C5_counterexample :
    resolveChecked none [(12, 0)] = .ok ["12.0"] ∧ "12.0" ∉ validArchs := by
  exact ⟨rfl, by decide⟩

/-- C5 amended: whenever resolution succeeds the resolved set is
non-empty, and every element either belongs to the supported catalog
(with optional `+PTX` suffix — always the case on the override path) or
is the formatted capability `major.minor` of a probed device with
`major >= 8` (the probe path, which does not restrict to the catalog). -/
theorem C5_resolved_set (env : Option String) (devices : List (Nat × Nat))
    (ccs : List String) (h : resolveChecked env devices = .ok ccs) :
    ccs ≠ [] ∧ ∀ c ∈ ccs,
      c ∈ validArchs ∨ ∃ mj mi, (mj, mi) ∈ devices ∧ 8 ≤ mj ∧ c = capString mj mi := by
  cases hra : resolveArchs env devices with
  | error e => rw [resolveChecked, hra] at h; simp at h
  | ok l =>
    simp only [resolveChecked, hra] at h
    split at h
    · cases h
    · rename_i hne
      cases h
      refine ⟨by simpa [List.isEmpty_iff] using hne, ?_⟩
      cases htl : get_torch_arch_list env with
      | error e => rw [resolveArchs, htl] at hra; simp at hra
      | ok p =>
        obtain ⟨l0, w⟩ := p
        simp only [resolveArchs, htl] at hra
        split at hra
        · cases hp : probeDevices devices with
          | error e => rw [hp] at hra; cases hra
          | ok lp =>
            rw [hp] at hra
            simp only [Except.map] at hra
            cases hra
            intro c hc
            exact Or.inr (probeDevices_ok_mem hp c (List.mem_dedup.mp hc))
        · cases hra
          intro c hc
          exact Or.inl (get_torch_arch_list_ok_mem htl c hc)

/-- C5 witness: the amended invariant instantiated at the successful
run with override `"8.0"` and no devices. -/
theorem C5_resolved_set_witness :
    ["8.0"] ≠ ([] : List String) ∧ ∀ c ∈ ["8.0"],
      c ∈ validArchs ∨ ∃ mj mi, (mj, mi) ∈ ([] : List (Nat × Nat)) ∧
        8 ≤ mj ∧ c = capString mj mi :=
  C5_resolved_set (some "8.0") [] ["8.0"] rfl

/-! ## C6: probe-path error handling -/

/-- C6 counterexample: probing a single device of capability 7.5 (with
the override absent) does fail, but the raised error message is the
fixed string `belowMsg`, which does not contain the offending
capability value `7.5` — against the claim that the message names the
offending capability. -/
theorem C6_counterexample :
    resolveChecked none [(7, 5)] = .error belowMsg ∧
    containsSubstr "7.5".toList belowMsg.toList = false := by
  exact ⟨rfl, by decide⟩

/-- C6 amended: with the override absent, resolution fails with the
no-GPUs error exactly when probing enumerates no devices, and fails
with the fixed below-8.0 error — a constant message independent of the
offending device, hence naming no capability value — whenever some
device reports a major version below 8. -/
theorem C6_probe_failures (devices : List (Nat × Nat)) :
    (resolveChecked none devices = .error noGpusMsg ↔ devices = []) ∧
    (∀ mj mi, (mj, mi) ∈ devices → mj < 8 →
      resolveChecked none devices = .error belowMsg) := by
  constructor
  · rw [resolveChecked_none]
    cases devices with
    | nil => exact ⟨fun _ => rfl, fun _ => rfl⟩
    | cons d rest =>
      obtain ⟨a, b⟩ := d
      constructor
      · intro h
        by_cases hlt : a < 8
        · rw [probeDevices_low (List.mem_cons_self _ _) hlt] at h
          simp only at h
          exact absurd (Except.error.inj h) (by decide)
        · cases hp : probeDevices rest with
          | error e =>
            have hpc : probeDevices ((a, b) :: rest) = .error e := by
              simp only [probeDevices]
              rw [if_neg hlt, hp]
              rfl
            rw [hpc] at h
            simp only at h
            have := probeDevices_error hp
            subst this
            exact absurd (Except.error.inj h) (by decide)
          | ok lp =>
            have hpc : probeDevices ((a, b) :: rest) = .ok (capString a b :: lp) := by
              simp only [probeDevices]
              rw [if_neg hlt, hp]
              rfl
            rw [hpc] at h
            simp only at h
            rw [if_neg (by simp [List.isEmpty_iff, List.dedup_eq_nil])] at h
            exact absurd h (by simp)
      · intro h
        exact absurd h (by simp)
  · intro mj mi hmem hlow
    rw [resolveChecked_none, probeDevices_low hmem hlow]

/-- C6 witness: the amended statement instantiated at an empty device
list and at the single 7.5-capability device. -/
theorem C6_probe_failures_witness :
    (resolveChecked none ([] : List (Nat × Nat)) = .error noGpusMsg ↔
      ([] : List (Nat × Nat)) = []) ∧
    resolveChecked none [(7, 5)] = .error belowMsg :=
  ⟨(C6_probe_failures []).1, (C6_probe_failures [(7, 5)]).2 7 5 (by decide) (by decide)⟩

/-! ## C7: toolchain validation -/

/-- The architectures that require CUDA 12.4 (8.9 and 9.0, with or
without PTX suffix). -/
def strictArchs : List String := ["8.9", "8.9+PTX", "9.0", "9.0+PTX"]

/-- Over the supported catalog, the prefix tests of setup.py lines
142 and 145 recognise exactly the 8.9 / 9.0 entries and their `+PTX`
variants. -/
theorem startsWith_strict : ∀ c ∈ validArchs,
    ((pyStartsWith "8.9" c || pyStartsWith "9.0" c) = true ↔ c ∈ strictArchs) := by
  decide

/-- C7: for resolved sets drawn from the catalog, validation fails
exactly when the toolchain version is below the global minimum 12.0, or
below 12.4 while the set contains an 8.9 or 9.0 architecture (including
`+PTX` variants); in particular `validate(11.8, {8.0})` and
`validate(12.0, {8.9})` fail and `validate(12.4, {8.9, 9.0})` succeeds.
Any violation yields the error value, aborting the whole pass. -/
theorem C7_toolchain_validation :
    (∀ (v : Nat × Nat) (ccs : List String), (∀ c ∈ ccs, c ∈ validArchs) →
      ((validateToolchain v ccs).isOk = false ↔
        (verLt v (12, 0) = true ∨
          (verLt v (12, 4) = true ∧ ∃ c ∈ ccs, c ∈ strictArchs)))) ∧
    (validateToolchain (11, 8) ["8.0"]).isOk = false ∧
    (validateToolchain (12, 0) ["8.9"]).isOk = false ∧
    validateToolchain (12, 4) ["8.9", "9.0"] = .ok () := by
  refine ⟨?_, by decide, by decide, rfl⟩
  intro v ccs hsub
  by_cases h0 : verLt v (12, 0) = true
  · rw [validateToolchain, if_pos h0]
    simp [h0]
    rfl
  · rw [validateToolchain, if_neg h0]
    by_cases h4 : verLt v (12, 4) = true
    · rw [if_pos h4]
      by_cases h89 : ccs.any (fun cc => pyStartsWith "8.9" cc) = true
      · rw [if_pos h89]
        obtain ⟨c, hc, hs⟩ := List.any_eq_true.mp h89
        have hmem : c ∈ strictArchs :=
          (startsWith_strict c (hsub c hc)).mp (by simp [hs])
        simp only [Except.isOk, Except.toBool]
        exact ⟨fun _ => Or.inr ⟨h4, c, hc, hmem⟩, fun _ => trivial⟩
      · rw [if_neg h89]
        by_cases h90 : ccs.any (fun cc => pyStartsWith "9.0" cc) = true
        · rw [if_pos h90]
          obtain ⟨c, hc, hs⟩ := List.any_eq_true.mp h90
          have hmem : c ∈ strictArchs :=
            (startsWith_strict c (hsub c hc)).mp (by simp [hs])
          simp only [Except.isOk, Except.toBool]
          exact ⟨fun _ => Or.inr ⟨h4, c, hc, hmem⟩, fun _ => trivial⟩
        · rw [if_neg h90]
          simp only [Except.isOk, Except.toBool]
          constructor
          · intro h
            exact absurd h (by simp)
          · rintro (h | ⟨-, c, hc, hmem⟩)
            · exact absurd h h0
            · rcases Bool.or_eq_true_iff.mp ((startsWith_strict c (hsub c hc)).mpr hmem) with hs | hs
              · exact absurd (List.any_eq_true.mpr ⟨c, hc, hs⟩) h89
              · exact absurd (List.any_eq_true.mpr ⟨c, hc, hs⟩) h90
    · rw [if_neg h4]
      simp only [Except.isOk, Except.toBool]
      constructor
      · intro h
        exact absurd h (by simp)
      · rintro (h | ⟨h, -⟩)
        · exact absurd h h0
        · exact absurd h h4

/-- C7 witness: the validation characterisation instantiated at version
12.0 with resolved set `{8.9}`. -/
theorem C7_toolchain_validation_witness :
    (validateToolchain (12, 0) ["8.9"]).isOk = false ↔
      (verLt (12, 0) (12, 0) = true ∨
        (verLt (12, 0) (12, 4) = true ∧ ∃ c ∈ ["8.9"], c ∈ strictArchs)) :=
  C7_toolchain_validation.1 (12, 0) ["8.9"] (by decide)

/-! ## C8: override parsing and filtering -/

/-- C8: for every override string, the parsed entries (split on spaces
or semicolons) are intersected with the catalog (with optional `+PTX`
suffix); the result is exactly the supported parsed entries, the
non-fatal warning is emitted exactly when some parsed entry is
unsupported, and resolution fails exactly when no parsed entry is
supported.  In particular `"8.0;9.0"` resolves to `{8.0, 9.0}` with no
warning, `"8.0;7.5"` resolves to `{8.0}` with a warning, and `"7.5"`
fails. -/
theorem C8_override_resolution :
    (∀ (s : String) (l : List String) (w : Bool),
      get_torch_arch_list (some s) = .ok (l, w) →
        ((∀ a, a ∈ l ↔ a ∈ parseArchList s ∧ a ∈ validArchs) ∧
         (w = true ↔ ∃ a ∈ parseArchList s, a ∉ validArchs))) ∧
    (∀ s : String, (get_torch_arch_list (some s)).isOk = false ↔
      ∀ a ∈ parseArchList s, a ∉ validArchs) ∧
    get_torch_arch_list (some "8.0;9.0") = .ok (["8.0", "9.0"], false) ∧
    get_torch_arch_list (some "8.0;7.5") = .ok (["8.0"], true) ∧
    (get_torch_arch_list (some "7.5")).isOk = false := by
  refine ⟨?_, ?_, rfl, rfl, rfl⟩
  · intro s l w h
    simp only [get_torch_arch_list] at h
    split at h
    · rename_i hnil
      exact absurd hnil (parseArchList_ne_nil s)
    · split at h
      · cases h
      · cases h
        constructor
        · intro a
          simp [List.mem_filter, List.elem_iff]
        · simp [List.isEmpty_iff, List.filter_eq_nil_iff, List.elem_iff]
  · intro s
    have hne := parseArchList_ne_nil s
    simp only [get_torch_arch_list]
    rw [if_neg hne]
    by_cases hf : (parseArchList s).filter (fun a => validArchs.contains a) = []
    · rw [if_pos hf]
      have hall := List.filter_eq_nil_iff.mp hf
      constructor
      · intro _ a ha
        intro hmem
        exact hall a ha (by simp [List.elem_iff, hmem])
      · intro _
        rfl
    · rw [if_neg hf]
      constructor
      · intro h
        exact absurd h (by simp only [Except.isOk, Except.toBool]; simp)
      · intro hall
        refine absurd (List.filter_eq_nil_iff.mpr ?_) hf
        intro a ha
        simp [List.elem_iff]
        exact hall a ha

/-- C8 witness: the override characterisation instantiated at the
override string `"8.0;7.5"`. -/
theorem C8_override_resolution_witness :
    (∀ a, a ∈ ["8.0"] ↔ a ∈ parseArchList "8.0;7.5" ∧ a ∈ validArchs) ∧
    (true = true ↔ ∃ a ∈ parseArchList "8.0;7.5", a ∉ validArchs) :=
  C8_override_resolution.1 "8.0;7.5" ["8.0"] true rfl

/-! ## C9: per-architecture code-generation pairs -/

/-- A member's contribution appears contiguously inside a `flatMap`. -/
theorem flatMap_chunk {α β : Type} (f : α → List β) {c : α} {ccs : List α} (h : c ∈ ccs) :
    ∃ p q, ccs.flatMap f = p ++ f c ++ q := by
  induction ccs with
  | nil => simp at h
  | cons d rest ih =>
    rcases List.mem_cons.mp h with h | h
    · subst h
      exact ⟨[], rest.flatMap f, by simp⟩
    · obtain ⟨p, q, hpq⟩ := ih h
      exact ⟨f d ++ p, q, by simp [hpq]⟩

/-- C9: for every resolved architecture drawn from the catalog, the
assembled device flags contain, contiguously, one code-generation pair
for that compute/binary target — with generation 9.0 mapped to the
suffixed identifier `90a` rather than the literal `90` — followed by a
second, forward-compatible intermediate-code pair exactly when the
architecture carries the `+PTX` suffix; and the ABI-derived
binary-interface define appears in both the compile (cxx) and the
device (nvcc) flag lists. -/
theorem C9_flag_assembly (ccs : List String) (abi : Nat) (c : String)
    (hc : c ∈ ccs) (hv : c ∈ validArchs) :
    (∃ p q, nvccFlags ccs abi =
      p ++ (["-gencode", "arch=compute_" ++ numMapped c ++ ",code=sm_" ++ numMapped c] ++
        (if pyEndsWith c "+PTX" = true then
          ["-gencode", "arch=compute_" ++ numMapped c ++ ",code=compute_" ++ numMapped c]
         else [])) ++ q) ∧
    (numMapped c = if c = "9.0" ∨ c = "9.0+PTX" then "90a" else numOf c) ∧
    abiDefine abi ∈ cxxFlags ccs abi ∧ abiDefine abi ∈ nvccFlags ccs abi := by
  refine ⟨?_, ?_, ?_, ?_⟩
  · obtain ⟨p, q, hpq⟩ := flatMap_chunk capNvcc hc
    refine ⟨NVCC_FLAGS_BASE ++ [abiDefine abi] ++ p, q, ?_⟩
    rw [nvccFlags, hpq]
    simp [capNvcc, gencodeSm, gencodePtx]
  · exact (by decide :
      ∀ x ∈ validArchs, numMapped x = if x = "9.0" ∨ x = "9.0+PTX" then "90a" else numOf x) c hv
  · simp [cxxFlags]
  · simp [nvccFlags]

/-- C9 witness: the flag-assembly property instantiated at the resolved
set `{9.0+PTX}` with ABI flag 1. -/
theorem C9_flag_assembly_witness :
    (∃ p q, nvccFlags ["9.0+PTX"] 1 =
      p ++ (["-gencode", "arch=compute_" ++ numMapped "9.0+PTX" ++ ",code=sm_" ++
              numMapped "9.0+PTX"] ++
        (if pyEndsWith "9.0+PTX" "+PTX" = true then
          ["-gencode", "arch=compute_" ++ numMapped "9.0+PTX" ++ ",code=compute_" ++
            numMapped "9.0+PTX"]
         else [])) ++ q) ∧
    (numMapped "9.0+PTX" =
      if "9.0+PTX" = "9.0" ∨ ("9.0+PTX" : String) = "9.0+PTX" then "90a"
      else numOf "9.0+PTX") ∧
    abiDefine 1 ∈ cxxFlags ["9.0+PTX"] 1 ∧ abiDefine 1 ∈ nvccFlags ["9.0+PTX"] 1 :=
  C9_flag_assembly ["9.0+PTX"] 1 "9.0+PTX" (by decide) (by decide)
